import Mathlib

/-!
# Prometheus discovery client

A shallow embedding of `pkg/discovery/discovery_client.go`: the three
operations of `PrometheusDiscoveryClient` (`GetAccountValues`, `Validate`,
`Discover`) over explicit records for the protobuf DTOs.

Conventions of the embedding:

* a Go pointer field (`*string`, `*float64`, a pointer to a message) is an
  `Option`; a Go slice is a `List`, the nil slice being `[]`;
* a Go `error` is `Option GoError`, `none` being `nil`;
* a Go map is the list of its entries in the order `range` visits them;
* `glog` calls only write to the log and are left out;
* the call to the Prometheus server and `time.Now()` are inputs: the client
  record carries the query function, the time is an argument;
* a run-time panic (a failed type assertion) is the result `none`.
-/

set_option autoImplicit false

/-- A Go `error` value, reduced to the text its `Error()` method returns
(what `fmt.Sprintf("%v", err)` prints). -/
structure GoError where
  Error : String
  deriving DecidableEq, Repr

/-! ## `github.com/prometheus/common/model` -/

namespace model

/-- The entries of a `model.LabelSet` (`map[LabelName]LabelValue`), in the
order a `range` loop visits them. -/
abbrev LabelSet := List (String × String)

/-- A `model.Metric` is a label set. -/
abbrev Metric := LabelSet

/-- The label that holds the metric name. -/
def MetricNameLabel : String := "__name__"

/-- The map index expression `m[k]` with its presence flag. -/
def LabelSet.get? (m : LabelSet) (k : String) : Option String :=
  List.lookup k m

/-- The keys of a real map are pairwise distinct. -/
def LabelSet.WellFormed (m : LabelSet) : Prop :=
  (m.map Prod.fst).Nodup

instance LabelSet.decidableWellFormed (m : LabelSet) : Decidable m.WellFormed :=
  inferInstanceAs (Decidable (m.map Prod.fst).Nodup)

/-- Two iteration orders of the same mapping from label name to label value:
every index expression gives the same answer on both. -/
def LabelSet.SameMapping (m₁ m₂ : LabelSet) : Prop :=
  m₁.WellFormed ∧ m₂.WellFormed ∧ ∀ k, m₁.get? k = m₂.get? k

/-- Modelled from the spec: `Metric.String` belongs to the Prometheus client
library and is not under src/; the spec calls it the canonical string
serialization of the labelset. The library renders every label other than
the metric name as `name=` followed by the quoted value, sorts the rendered
strings and joins them with a comma and a blank between braces after the
metric name; a metric with no other label prints as its bare name, and the
empty metric as a pair of braces. `quote` is the `%q` verb of `fmt`. -/
def Metric.String (quote : String → String) (m : Metric) : String :=
  let metricName := (m.get? MetricNameLabel).getD ""
  let hasName := (m.get? MetricNameLabel).isSome
  let numLabels := if hasName then m.length - 1 else m.length
  let labelStrings :=
    (m.filter (fun p => p.1 != MetricNameLabel)).map (fun p => p.1 ++ "=" ++ quote p.2)
  match numLabels with
  | 0 => if hasName then metricName else "\x7b\x7d"
  | _ + 1 =>
    metricName ++ "\x7b" ++ ", ".intercalate (labelStrings.insertionSort (· ≤ ·)) ++ "\x7d"

/-- A `model.Sample`: one row of an instant query's result. -/
structure Sample where
  Metric : Metric
  Value : Float
  Timestamp : Int

/-- The implementations of the `model.Value` interface. Only a vector
carries data the client reads. -/
inductive Value where
  | Scalar
  | Vector (v : List Sample)
  | Matrix
  | String

end model

/-! ## `github.com/turbonomic/turbo-go-sdk/pkg/proto` -/

namespace proto

structure AccountValue where
  Key : Option String
  StringValue : Option String
  deriving DecidableEq, Repr

inductive ErrorDTO_ErrorSeverity where
  | CRITICAL
  | WARNING
  deriving DecidableEq, Repr

structure ErrorDTO where
  Severity : Option ErrorDTO_ErrorSeverity
  Description : Option String
  deriving DecidableEq, Repr

structure ValidationResponse where
  ErrorDTO : List ErrorDTO
  deriving DecidableEq, Repr

inductive CommodityDTO_CommodityType where
  | RESPONSE_TIME
  | VCPU
  | VMEM
  deriving DecidableEq, Repr

structure CommodityDTO where
  CommodityType : Option CommodityDTO_CommodityType
  Capacity : Option Float
  Used : Option Float

inductive EntityDTO_EntityType where
  | APPLICATION
  | VIRTUAL_MACHINE
  deriving DecidableEq, Repr

/-- The field `Type` of the message is spelled `Type_`: `Type` is a keyword. -/
structure EntityDTO_ApplicationData where
  Type_ : Option String
  IpAddress : Option String
  deriving DecidableEq, Repr

structure EntityDTO_EntityProperty where
  Namespace : Option String
  Name : Option String
  Value : Option String
  deriving DecidableEq, Repr

/-- The fields of `proto.EntityDTO` that the client sets. An element of
`CommoditiesSold` is a pointer and may be nil. -/
structure EntityDTO where
  EntityType : Option EntityDTO_EntityType
  Id : Option String
  DisplayName : Option String
  CommoditiesSold : List (Option CommodityDTO)
  ApplicationData : Option EntityDTO_ApplicationData
  EntityProperties : List EntityDTO_EntityProperty

structure DiscoveryResponse where
  EntityDTO : List EntityDTO
  ErrorDTO : List ErrorDTO

end proto

/-! ## `github.com/turbonomic/turbo-go-sdk/pkg/builder` -/

namespace builder

/-- The state of a commodity builder: what the fluent calls recorded. -/
structure CommodityDTOBuilder where
  commodityType : proto.CommodityDTO_CommodityType
  used : Option Float
  capacity : Option Float
  err : Option GoError

def NewCommodityDTOBuilder (commodityType : proto.CommodityDTO_CommodityType) :
    CommodityDTOBuilder :=
  { commodityType := commodityType, used := none, capacity := none, err := none }

def CommodityDTOBuilder.Capacity (cb : CommodityDTOBuilder) (capacity : Float) :
    CommodityDTOBuilder :=
  match cb.err with
  | some _ => cb
  | none => { cb with capacity := some capacity }

def CommodityDTOBuilder.Used (cb : CommodityDTOBuilder) (used : Float) :
    CommodityDTOBuilder :=
  match cb.err with
  | some _ => cb
  | none => { cb with used := some used }

/-- Modelled from the spec: the commodity builder of the SDK is not under
src/. The spec has the mapper build one commodity of the fixed type with the
fixed capacity and `used` set to the sample's value; the builder hands back
what the fluent calls recorded, or the error one of them recorded. -/
def CommodityDTOBuilder.Create (cb : CommodityDTOBuilder) :
    Except GoError proto.CommodityDTO :=
  match cb.err with
  | some e => .error e
  | none =>
    .ok { CommodityType := some cb.commodityType, Capacity := cb.capacity, Used := cb.used }

/-- The state of an entity builder: what the fluent calls recorded. -/
structure EntityDTOBuilder where
  entityType : proto.EntityDTO_EntityType
  id : String
  displayName : Option String
  commoditiesSold : List (Option proto.CommodityDTO)
  applicationData : Option proto.EntityDTO_ApplicationData
  entityProperties : List proto.EntityDTO_EntityProperty

def NewEntityDTOBuilder (eType : proto.EntityDTO_EntityType) (id : String) :
    EntityDTOBuilder :=
  { entityType := eType, id := id, displayName := none, commoditiesSold := [],
    applicationData := none, entityProperties := [] }

def EntityDTOBuilder.DisplayName (eb : EntityDTOBuilder) (displayName : String) :
    EntityDTOBuilder :=
  { eb with displayName := some displayName }

def EntityDTOBuilder.SellsCommodity (eb : EntityDTOBuilder)
    (commDTO : Option proto.CommodityDTO) : EntityDTOBuilder :=
  { eb with commoditiesSold := eb.commoditiesSold ++ [commDTO] }

def EntityDTOBuilder.ApplicationData (eb : EntityDTOBuilder)
    (appData : proto.EntityDTO_ApplicationData) : EntityDTOBuilder :=
  { eb with applicationData := some appData }

def EntityDTOBuilder.WithProperty (eb : EntityDTOBuilder)
    (property : proto.EntityDTO_EntityProperty) : EntityDTOBuilder :=
  { eb with entityProperties := eb.entityProperties ++ [property] }

/-- Modelled from the spec: the entity builder of the SDK is not under src/.
The spec has entity construction either fail for a sample (malformed inputs)
or yield an entity carrying the attached type, identity, display name, sold
commodity, payload and property. `check` is the SDK's own validation of the
recorded inputs, the origin of the error `Create` may return. -/
def EntityDTOBuilder.Create (check : EntityDTOBuilder → Option GoError)
    (eb : EntityDTOBuilder) : Except GoError proto.EntityDTO :=
  match check eb with
  | some e => .error e
  | none =>
    .ok { EntityType := some eb.entityType, Id := some eb.id, DisplayName := eb.displayName,
          CommoditiesSold := eb.commoditiesSold, ApplicationData := eb.applicationData,
          EntityProperties := eb.entityProperties }

end builder

/-! ## `pkg/conf`, `pkg/registration` and the SDK's `probe` package -/

namespace conf

/-- The target configuration; the client reads its address only. -/
structure PrometheusTargetConf where
  Address : String
  deriving DecidableEq, Repr

end conf

/-- The constants of `pkg/registration`, a package that is not under src/:
their values are inputs. -/
structure registration where
  TargetIdField : String
  ProbeCategory : String
  TargetType : String
  deriving DecidableEq, Repr

namespace probe

structure TurboTargetInfo where
  targetCategory : String
  targetType : String
  targetIdentifierField : String
  accountValues : List proto.AccountValue
  deriving DecidableEq, Repr

/-- The builder keeps the four arguments it is given. -/
structure TurboTargetInfoBuilder where
  targetCategory : String
  targetType : String
  targetIdentifierField : String
  accountValues : List proto.AccountValue

def NewTurboTargetInfoBuilder (category targetType idField : String)
    (accountValues : List proto.AccountValue) : TurboTargetInfoBuilder :=
  { targetCategory := category, targetType := targetType,
    targetIdentifierField := idField, accountValues := accountValues }

/-- Modelled from the spec: the target-info builder of the SDK is not under
src/. The spec has `GetAccountValues` return a target-info descriptor made of
the identity field name, the probe category, the target type and the account
values: the descriptor holds the builder's four arguments. -/
def TurboTargetInfoBuilder.Create (b : TurboTargetInfoBuilder) : TurboTargetInfo :=
  { targetCategory := b.targetCategory, targetType := b.targetType,
    targetIdentifierField := b.targetIdentifierField, accountValues := b.accountValues }

end probe

/-! ## `pkg/discovery` -/

namespace discovery

/-- What the code takes from its libraries and the source does not fix:
the `%q` verb of `fmt`, the property key constant of the SDK's `supplychain`
package and the validation done by the SDK's entity builder. -/
structure Libs where
  quote : String → String
  SUPPLY_CHAIN_CONSTANT_IP_ADDRESS : String
  entityCheck : builder.EntityDTOBuilder → Option GoError

/-- The method `Query` of `prometheus.API`: query expression and evaluation
time in, the Go result pair out (a nil interface value is `none`). -/
structure API where
  Query : String → Int → Option model.Value × Option GoError

structure PrometheusDiscoveryClient where
  TargetConf : conf.PrometheusTargetConf
  PrometheusApi : API

/-- The query expression of `Discover`. -/
def queryExpr : String :=
  "(navigation_timing_response_end_seconds-navigation_timing_request_start_seconds)*1000"

def GetAccountValues (reg : registration) (discClient : PrometheusDiscoveryClient) :
    probe.TurboTargetInfo :=
  let targetConf := discClient.TargetConf
  let targetId := reg.TargetIdField
  let targetIdVal : proto.AccountValue :=
    { Key := some targetId, StringValue := some targetConf.Address }
  let accountValues := [targetIdVal]
  let targetInfo := (probe.NewTurboTargetInfoBuilder reg.ProbeCategory reg.TargetType
    reg.TargetIdField accountValues).Create
  targetInfo

def Validate (_discClient : PrometheusDiscoveryClient)
    (_accountValues : List proto.AccountValue) :
    proto.ValidationResponse × Option GoError :=
  let validationResponse : proto.ValidationResponse := { ErrorDTO := [] }
  (validationResponse, none)

/-- The builder chain of the loop body of `Discover` for one sample: the
commodity (its error dropped, as at the call site) and the entity. -/
def buildEntity (libs : Libs) (metric : model.Sample) : Except GoError proto.EntityDTO :=
  let propertyNamespace := "DEFAULT"
  let propertyName := libs.SUPPLY_CHAIN_CONSTANT_IP_ADDRESS
  let ipAddress := "10.10.174.90"
  let appType := "webdriver"
  let respTimeCommodity :=
    (((builder.NewCommodityDTOBuilder proto.CommodityDTO_CommodityType.RESPONSE_TIME).Capacity
      100.0).Used metric.Value).Create.toOption
  (((((builder.NewEntityDTOBuilder proto.EntityDTO_EntityType.APPLICATION
        (model.Metric.String libs.quote metric.Metric)).DisplayName
        (model.Metric.String libs.quote metric.Metric)).SellsCommodity
        respTimeCommodity).ApplicationData
        { Type_ := some appType, IpAddress := some ipAddress }).WithProperty
        { Namespace := some propertyNamespace, Name := some propertyName,
          Value := some ipAddress }).Create libs.entityCheck

/-- The `for` loop of `Discover`: an entity that was built is appended, a
sample whose builder failed is logged and skipped. -/
def discoverLoop (libs : Libs) (vector : List model.Sample) : List proto.EntityDTO :=
  vector.foldl
    (fun entities metric =>
      match buildEntity libs metric with
      | .error _ => entities
      | .ok appDto => entities ++ [appDto])
    []

/-- `Discover`, with the evaluation time `now` as an argument. The result is
`none` when the type assertion `value.(model.Vector)` panics. -/
def Discover (libs : Libs) (discClient : PrometheusDiscoveryClient) (now : Int)
    (_accountValues : List proto.AccountValue) :
    Option (proto.DiscoveryResponse × Option GoError) :=
  match discClient.PrometheusApi.Query queryExpr now with
  | (_, some err) =>
    let severity := proto.ErrorDTO_ErrorSeverity.CRITICAL
    let description := err.Error
    let errorDTO : proto.ErrorDTO :=
      { Severity := some severity, Description := some description }
    let discoveryResponse : proto.DiscoveryResponse :=
      { EntityDTO := [], ErrorDTO := [errorDTO] }
    some (discoveryResponse, none)
  | (some (model.Value.Vector vector), none) =>
    let entities := discoverLoop libs vector
    let discoveryResponse : proto.DiscoveryResponse :=
      { EntityDTO := entities, ErrorDTO := [] }
    some (discoveryResponse, none)
  | (_, none) => none

/-! ### Auxiliary definitions for the statements -/

/-- Whether the builder chain of one sample ends in an error: the samples
the loop logs and skips. -/
def buildFails (libs : Libs) (metric : model.Sample) : Bool :=
  match buildEntity libs metric with
  | .error _ => true
  | .ok _ => false

/-- A library environment whose entity builder accepts every input. -/
def acceptingLibs : Libs :=
  { quote := fun s => "\"" ++ s ++ "\"", SUPPLY_CHAIN_CONSTANT_IP_ADDRESS := "IP",
    entityCheck := fun _ => none }

/-- A library environment whose entity builder rejects the identity of the
empty labelset. -/
def pickyLibs : Libs :=
  { quote := fun s => "\"" ++ s ++ "\"", SUPPLY_CHAIN_CONSTANT_IP_ADDRESS := "IP",
    entityCheck := fun eb =>
      if eb.id = "\x7b\x7d" then some { Error := "entity id is empty" } else none }

/-- A client whose query always gives the result pair `r`. -/
def clientReturning (r : Option model.Value × Option GoError) : PrometheusDiscoveryClient :=
  { TargetConf := { Address := "http://localhost:9090" },
    PrometheusApi := { Query := fun _ _ => r } }

/-- A query result of two samples with the values 12.5 and 7.0 and distinct
labelsets. -/
def twoSamples : List model.Sample :=
  [{ Metric := [("__name__", "rt"), ("page", "a")], Value := 12.5, Timestamp := 0 },
   { Metric := [("__name__", "rt"), ("page", "b")], Value := 7.0, Timestamp := 0 }]

/-- A query result whose second sample has the empty labelset. -/
def threeSamples : List model.Sample :=
  [{ Metric := [("__name__", "rt"), ("page", "a")], Value := 12.5, Timestamp := 0 },
   { Metric := [], Value := 3.0, Timestamp := 0 },
   { Metric := [("__name__", "rt"), ("page", "b")], Value := 7.0, Timestamp := 0 }]

/-- A query result of two samples with the same labelset, visited in two
different orders. -/
def sameLabelSamples : List model.Sample :=
  [{ Metric := [("__name__", "rt"), ("page", "a")], Value := 12.5, Timestamp := 0 },
   { Metric := [("page", "a"), ("__name__", "rt")], Value := 7.0, Timestamp := 1 }]

end discovery

/-! ## Lemmas -/

namespace model

theorem LabelSet.mem_iff_get? (m : LabelSet) (hm : m.WellFormed) (k v : String) :
    (k, v) ∈ m ↔ m.get? k = some v := by
  induction m with
  | nil => simp [LabelSet.get?, List.lookup]
  | cons p rest ih =>
    obtain ⟨k', v'⟩ := p
    have hnd : k' ∉ rest.map Prod.fst ∧ (rest.map Prod.fst).Nodup := by
      simpa [LabelSet.WellFormed] using hm
    have ih' := ih hnd.2
    by_cases hk : k = k'
    · subst hk
      have hnot : (k, v) ∉ rest := fun hmem => hnd.1 (List.mem_map.mpr ⟨(k, v), hmem, rfl⟩)
      simp [LabelSet.get?, List.lookup, hnot]
      exact eq_comm
    · have hbeq : (k == k') = false := by simpa using hk
      simp only [LabelSet.get?, List.lookup, hbeq, List.mem_cons, Prod.mk.injEq, hk, false_and,
        false_or]
      exact ih'

theorem LabelSet.SameMapping.perm {m₁ m₂ : LabelSet} (h : LabelSet.SameMapping m₁ m₂) :
    m₁.Perm m₂ := by
  obtain ⟨h₁, h₂, hget⟩ := h
  refine (List.perm_ext_iff_of_nodup (List.Nodup.of_map _ h₁) (List.Nodup.of_map _ h₂)).mpr ?_
  rintro ⟨k, v⟩
  rw [LabelSet.mem_iff_get? m₁ h₁, LabelSet.mem_iff_get? m₂ h₂, hget k]

theorem metricString_eq_of_sameMapping (quote : String → String) {m₁ m₂ : Metric}
    (h : LabelSet.SameMapping m₁ m₂) : Metric.String quote m₁ = Metric.String quote m₂ := by
  have hperm : m₁.Perm m₂ := h.perm
  have hlen : m₁.length = m₂.length := hperm.length_eq
  have hname : LabelSet.get? m₁ MetricNameLabel = LabelSet.get? m₂ MetricNameLabel :=
    h.2.2 MetricNameLabel
  have hsort :
      ((m₁.filter (fun p => p.1 != MetricNameLabel)).map
          (fun p => p.1 ++ "=" ++ quote p.2)).insertionSort (· ≤ ·)
        = ((m₂.filter (fun p => p.1 != MetricNameLabel)).map
          (fun p => p.1 ++ "=" ++ quote p.2)).insertionSort (· ≤ ·) := by
    apply List.eq_of_perm_of_sorted (r := (· ≤ ·))
    · exact (List.perm_insertionSort _ _).trans
        (((hperm.filter _).map _).trans (List.perm_insertionSort _ _).symm)
    · exact List.sorted_insertionSort _ _
    · exact List.sorted_insertionSort _ _
  unfold Metric.String
  simp only [hname, hlen, hsort]

end model

namespace discovery

theorem foldl_loop_eq (libs : Libs) (vector : List model.Sample) (acc : List proto.EntityDTO) :
    vector.foldl
      (fun entities metric =>
        match buildEntity libs metric with
        | .error _ => entities
        | .ok appDto => entities ++ [appDto])
      acc
    = acc ++ vector.filterMap (fun s => (buildEntity libs s).toOption) := by
  induction vector generalizing acc with
  | nil => simp
  | cons s rest ih =>
    rw [List.foldl_cons, ih]
    cases h : buildEntity libs s with
    | error e => simp [List.filterMap_cons, h, Except.toOption]
    | ok d => simp [List.filterMap_cons, h, Except.toOption]

theorem discoverLoop_eq_filterMap (libs : Libs) (vector : List model.Sample) :
    discoverLoop libs vector = vector.filterMap (fun s => (buildEntity libs s).toOption) := by
  unfold discoverLoop
  rw [foldl_loop_eq]
  simp

theorem Discover_of_vector (libs : Libs) (c : PrometheusDiscoveryClient) (now : Int)
    (av : List proto.AccountValue) (v : List model.Sample)
    (hq : c.PrometheusApi.Query queryExpr now = (some (model.Value.Vector v), none)) :
    Discover libs c now av
      = some ({ EntityDTO := discoverLoop libs v, ErrorDTO := [] }, none) := by
  simp [Discover, hq]

theorem Discover_of_error (libs : Libs) (c : PrometheusDiscoveryClient) (now : Int)
    (av : List proto.AccountValue) (value : Option model.Value) (e : GoError)
    (hq : c.PrometheusApi.Query queryExpr now = (value, some e)) :
    Discover libs c now av
      = some ({ EntityDTO := [],
                ErrorDTO := [{ Severity := some proto.ErrorDTO_ErrorSeverity.CRITICAL,
                               Description := some e.Error }] }, none) := by
  simp [Discover, hq]

theorem length_filterMap_add_countP (libs : Libs) (v : List model.Sample) :
    (v.filterMap (fun s => (buildEntity libs s).toOption)).length
      + v.countP (buildFails libs) = v.length := by
  induction v with
  | nil => simp
  | cons s rest ih =>
    cases h : buildEntity libs s with
    | error e =>
      simp only [Except.toOption] at ih
      simp [List.filterMap_cons, List.countP_cons, buildFails, h, Except.toOption]
      omega
    | ok d =>
      simp only [Except.toOption] at ih
      simp [List.filterMap_cons, List.countP_cons, buildFails, h, Except.toOption]
      omega

theorem buildEntity_ok {libs : Libs} {s : model.Sample} {e : proto.EntityDTO}
    (h : buildEntity libs s = .ok e) :
    e = { EntityType := some proto.EntityDTO_EntityType.APPLICATION,
          Id := some (model.Metric.String libs.quote s.Metric),
          DisplayName := some (model.Metric.String libs.quote s.Metric),
          CommoditiesSold :=
            [some { CommodityType := some proto.CommodityDTO_CommodityType.RESPONSE_TIME,
                    Capacity := some 100.0, Used := some s.Value }],
          ApplicationData := some { Type_ := some "webdriver", IpAddress := some "10.10.174.90" },
          EntityProperties :=
            [{ Namespace := some "DEFAULT", Name := some libs.SUPPLY_CHAIN_CONSTANT_IP_ADDRESS,
               Value := some "10.10.174.90" }] } := by
  unfold buildEntity builder.EntityDTOBuilder.Create at h
  dsimp only at h
  split at h
  · cases h
  · cases h
    rfl

theorem forall₂_built (libs : Libs) (R : proto.EntityDTO → model.Sample → Prop)
    (hR : ∀ s e, buildEntity libs s = .ok e → R e s) (v : List model.Sample) :
    List.Forall₂ R (discoverLoop libs v) (v.filter (fun s => !buildFails libs s)) := by
  rw [discoverLoop_eq_filterMap]
  induction v with
  | nil => simp
  | cons s rest ih =>
    cases h : buildEntity libs s with
    | error e => simpa [List.filterMap_cons, List.filter_cons, buildFails, h, Except.toOption] using ih
    | ok d =>
      simp only [List.filterMap_cons, List.filter_cons, buildFails, h, Except.toOption]
      exact List.Forall₂.cons (hR s d h) ih

/-! ### The contracts of the three operations -/

/-- C1: when the metrics query returns an error `e`, `Discover` returns a
response with no entity and exactly one error descriptor, of severity
CRITICAL and with the text of `e` as description, and its own error result
is nil. -/
theorem Discover_query_failure (libs : Libs) (c : PrometheusDiscoveryClient) (now : Int)
    (av : List proto.AccountValue) (value : Option model.Value) (e : GoError)
    (hq : c.PrometheusApi.Query queryExpr now = (value, some e)) :
    Discover libs c now av
      = some ({ EntityDTO := [],
                ErrorDTO := [{ Severity := some proto.ErrorDTO_ErrorSeverity.CRITICAL,
                               Description := some e.Error }] }, none) :=
  Discover_of_error libs c now av value e hq

theorem Discover_query_failure_witness :
    (clientReturning (none, some { Error := "connection refused" })).PrometheusApi.Query
        queryExpr 0 = (none, some { Error := "connection refused" })
    ∧ Discover acceptingLibs (clientReturning (none, some { Error := "connection refused" })) 0 []
      = some ({ EntityDTO := [],
                ErrorDTO := [{ Severity := some proto.ErrorDTO_ErrorSeverity.CRITICAL,
                               Description := some "connection refused" }] }, none) :=
  ⟨rfl, Discover_query_failure acceptingLibs _ 0 [] none { Error := "connection refused" } rfl⟩

/-- C2: when the query succeeds with a sample vector, the number of entities
in the response plus the number of samples whose entity construction failed
is the length of the vector, and the response has no error descriptor. The
vector need not be non-empty for this. -/
theorem Discover_entities_plus_failed (libs : Libs) (c : PrometheusDiscoveryClient) (now : Int)
    (av : List proto.AccountValue) (v : List model.Sample)
    (hq : c.PrometheusApi.Query queryExpr now = (some (model.Value.Vector v), none)) :
    ∃ resp, Discover libs c now av = some (resp, none)
      ∧ resp.EntityDTO.length + v.countP (buildFails libs) = v.length
      ∧ resp.ErrorDTO = [] := by
  refine ⟨_, Discover_of_vector libs c now av v hq, ?_, rfl⟩
  simp only [discoverLoop_eq_filterMap]
  exact length_filterMap_add_countP libs v

theorem Discover_entities_plus_failed_witness :
    (clientReturning (some (model.Value.Vector threeSamples), none)).PrometheusApi.Query
        queryExpr 0 = (some (model.Value.Vector threeSamples), none)
    ∧ threeSamples.countP (buildFails pickyLibs) = 1
    ∧ ∃ resp, Discover pickyLibs
          (clientReturning (some (model.Value.Vector threeSamples), none)) 0 []
        = some (resp, none)
      ∧ resp.EntityDTO.length + threeSamples.countP (buildFails pickyLibs) = threeSamples.length
      ∧ resp.ErrorDTO = [] :=
  ⟨rfl, by decide, Discover_entities_plus_failed pickyLibs _ 0 [] threeSamples rfl⟩

/-- C3: when the query succeeds with a sample vector, the entities of the
response are, in order, those of the samples whose construction succeeded,
and each sells exactly one commodity: type RESPONSE_TIME, capacity 100.0 and
`used` equal to the value of the sample the entity was built from. -/
theorem Discover_sold_commodity (libs : Libs) (c : PrometheusDiscoveryClient) (now : Int)
    (av : List proto.AccountValue) (v : List model.Sample)
    (hq : c.PrometheusApi.Query queryExpr now = (some (model.Value.Vector v), none)) :
    ∃ resp, Discover libs c now av = some (resp, none)
      ∧ List.Forall₂
          (fun e s => e.CommoditiesSold
            = [some { CommodityType := some proto.CommodityDTO_CommodityType.RESPONSE_TIME,
                      Capacity := some 100.0, Used := some s.Value }])
          resp.EntityDTO (v.filter (fun s => !buildFails libs s)) := by
  refine ⟨_, Discover_of_vector libs c now av v hq, ?_⟩
  apply forall₂_built
  intro s e h
  rw [buildEntity_ok h]

theorem Discover_sold_commodity_witness :
    ((clientReturning (some (model.Value.Vector twoSamples), none)).PrometheusApi.Query
        queryExpr 0 = (some (model.Value.Vector twoSamples), none)
    ∧ ∃ resp, Discover acceptingLibs
          (clientReturning (some (model.Value.Vector twoSamples), none)) 0 []
        = some (resp, none)
      ∧ List.Forall₂
          (fun e s => e.CommoditiesSold
            = [some { CommodityType := some proto.CommodityDTO_CommodityType.RESPONSE_TIME,
                      Capacity := some 100.0, Used := some s.Value }])
          resp.EntityDTO (twoSamples.filter (fun s => !buildFails acceptingLibs s)))
    ∧ (Discover acceptingLibs
          (clientReturning (some (model.Value.Vector twoSamples), none)) 0 []).map
        (fun r => (r.1.EntityDTO.map (fun e => e.CommoditiesSold), r.1.ErrorDTO))
      = some ([[some { CommodityType := some proto.CommodityDTO_CommodityType.RESPONSE_TIME,
                       Capacity := some 100.0, Used := some 12.5 }],
               [some { CommodityType := some proto.CommodityDTO_CommodityType.RESPONSE_TIME,
                       Capacity := some 100.0, Used := some 7.0 }]], []) :=
  ⟨⟨rfl, Discover_sold_commodity acceptingLibs _ 0 [] twoSamples rfl⟩, rfl⟩

/-- C4: when the query succeeds with a sample vector, every entity of the
response has as id the serialization of the labelset of the sample it was
built from, and its display name is that same string; and the entities built
from two samples whose labelsets are the same mapping, in whatever iteration
order, have the same id and the same display name. -/
theorem Discover_identity_canonical (libs : Libs) (c : PrometheusDiscoveryClient) (now : Int)
    (av : List proto.AccountValue) (v : List model.Sample)
    (hq : c.PrometheusApi.Query queryExpr now = (some (model.Value.Vector v), none)) :
    ∃ resp, Discover libs c now av = some (resp, none)
      ∧ List.Forall₂
          (fun e s => e.Id = some (model.Metric.String libs.quote s.Metric)
            ∧ e.DisplayName = e.Id)
          resp.EntityDTO (v.filter (fun s => !buildFails libs s))
      ∧ ∀ s₁ s₂ e₁ e₂, model.LabelSet.SameMapping s₁.Metric s₂.Metric →
          buildEntity libs s₁ = .ok e₁ → buildEntity libs s₂ = .ok e₂ →
          e₁.Id = e₂.Id ∧ e₁.DisplayName = e₂.DisplayName := by
  refine ⟨_, Discover_of_vector libs c now av v hq, ?_, ?_⟩
  · apply forall₂_built
    intro s e h
    rw [buildEntity_ok h]
    exact ⟨rfl, rfl⟩
  · intro s₁ s₂ e₁ e₂ hsame h₁ h₂
    rw [buildEntity_ok h₁, buildEntity_ok h₂]
    simp only [model.metricString_eq_of_sameMapping libs.quote hsame, and_self]

theorem Discover_identity_canonical_witness :
    ((clientReturning (some (model.Value.Vector sameLabelSamples), none)).PrometheusApi.Query
        queryExpr 0 = (some (model.Value.Vector sameLabelSamples), none)
    ∧ model.LabelSet.SameMapping
        [("__name__", "rt"), ("page", "a")] [("page", "a"), ("__name__", "rt")]
    ∧ ∃ resp, Discover acceptingLibs
          (clientReturning (some (model.Value.Vector sameLabelSamples), none)) 0 []
        = some (resp, none)
      ∧ List.Forall₂
          (fun e s => e.Id = some (model.Metric.String acceptingLibs.quote s.Metric)
            ∧ e.DisplayName = e.Id)
          resp.EntityDTO (sameLabelSamples.filter (fun s => !buildFails acceptingLibs s))
      ∧ ∀ s₁ s₂ e₁ e₂, model.LabelSet.SameMapping s₁.Metric s₂.Metric →
          buildEntity acceptingLibs s₁ = .ok e₁ → buildEntity acceptingLibs s₂ = .ok e₂ →
          e₁.Id = e₂.Id ∧ e₁.DisplayName = e₂.DisplayName)
    ∧ (Discover acceptingLibs
          (clientReturning (some (model.Value.Vector sameLabelSamples), none)) 0 []).map
        (fun r => r.1.EntityDTO.map (fun e => (e.Id, e.DisplayName)))
      = some [(some "rt\x7bpage=\"a\"\x7d", some "rt\x7bpage=\"a\"\x7d"),
              (some "rt\x7bpage=\"a\"\x7d", some "rt\x7bpage=\"a\"\x7d")] := by
  refine ⟨⟨rfl, ⟨by decide, by decide, ?_⟩,
    Discover_identity_canonical acceptingLibs _ 0 [] sameLabelSamples rfl⟩, by decide⟩
  intro k
  by_cases h₁ : k = "__name__"
  · subst h₁
    rfl
  · by_cases h₂ : k = "page"
    · subst h₂
      rfl
    · have hb₁ : (k == "__name__") = false := by simpa using h₁
      have hb₂ : (k == "page") = false := by simpa using h₂
      simp [model.LabelSet.get?, List.lookup, hb₁, hb₂]

/-- C5: `GetAccountValues` returns a target-info descriptor with exactly one
account value, whose key is the identity field name and whose string value is
the configured address; the descriptor's identity field is that same field. -/
theorem GetAccountValues_single_account_value (reg : registration)
    (c : PrometheusDiscoveryClient) :
    (GetAccountValues reg c).accountValues
        = [{ Key := some reg.TargetIdField, StringValue := some c.TargetConf.Address }]
      ∧ (GetAccountValues reg c).targetIdentifierField = reg.TargetIdField :=
  ⟨rfl, rfl⟩

/-- C6, as stated, fails: on a successful query with the empty vector
`Discover` returns a response that has neither an entity nor an error
descriptor, so it is neither of the two outcomes. -/
theorem Discover_both_lists_empty :
    ∃ resp err,
      Discover acceptingLibs (clientReturning (some (model.Value.Vector []), none)) 0 []
        = some (resp, err)
      ∧ ¬ ((resp.EntityDTO ≠ [] ∧ resp.ErrorDTO = [])
            ∨ (resp.ErrorDTO ≠ [] ∧ resp.EntityDTO = [])) :=
  ⟨{ EntityDTO := [], ErrorDTO := [] }, none, rfl, by simp⟩

/-- C6, amended: every response returned by `Discover` is exactly one of
three outcomes: entities and no error descriptor; error descriptors and no
entity; or neither, which happens only when the query succeeded with a vector
none of whose samples built (the empty vector among them). No response has
both lists non-empty. -/
theorem Discover_outcomes (libs : Libs) (c : PrometheusDiscoveryClient) (now : Int)
    (av : List proto.AccountValue) (resp : proto.DiscoveryResponse) (err : Option GoError)
    (h : Discover libs c now av = some (resp, err)) :
    ((resp.EntityDTO ≠ [] ∧ resp.ErrorDTO = [])
      ∨ (resp.ErrorDTO ≠ [] ∧ resp.EntityDTO = [])
      ∨ (resp.EntityDTO = [] ∧ resp.ErrorDTO = []
          ∧ ∃ v, c.PrometheusApi.Query queryExpr now = (some (model.Value.Vector v), none)
              ∧ ∀ s ∈ v, buildFails libs s = true))
    ∧ ¬ (resp.EntityDTO ≠ [] ∧ resp.ErrorDTO ≠ []) := by
  rcases hq : c.PrometheusApi.Query queryExpr now with ⟨value, qerr⟩
  cases qerr with
  | some e =>
    rw [Discover_of_error libs c now av value e hq] at h
    cases h
    simp
  | none =>
    cases value with
    | none => simp [Discover, hq] at h
    | some val =>
      cases val with
      | Vector v =>
        rw [Discover_of_vector libs c now av v hq] at h
        cases h
        have hcount := length_filterMap_add_countP libs v
        rw [← discoverLoop_eq_filterMap] at hcount
        by_cases hnil : discoverLoop libs v = []
        · refine ⟨Or.inr (Or.inr ⟨hnil, rfl, v, rfl, ?_⟩), by simp⟩
          rw [hnil] at hcount
          have hall : v.countP (buildFails libs) = v.length := by simpa using hcount
          intro s hs
          exact (List.countP_eq_length.mp hall) s hs
        · exact ⟨Or.inl ⟨hnil, rfl⟩, by simp⟩
      | Scalar => simp [Discover, hq] at h
      | Matrix => simp [Discover, hq] at h
      | String => simp [Discover, hq] at h

theorem Discover_outcomes_witness :
    Discover acceptingLibs (clientReturning (some (model.Value.Vector twoSamples), none)) 0 []
        = some ({ EntityDTO := discoverLoop acceptingLibs twoSamples, ErrorDTO := [] }, none)
    ∧ (((discoverLoop acceptingLibs twoSamples ≠ [] ∧ ([] : List proto.ErrorDTO) = [])
        ∨ (([] : List proto.ErrorDTO) ≠ [] ∧ discoverLoop acceptingLibs twoSamples = [])
        ∨ (discoverLoop acceptingLibs twoSamples = [] ∧ ([] : List proto.ErrorDTO) = []
            ∧ ∃ v, (clientReturning (some (model.Value.Vector twoSamples), none)).PrometheusApi.Query
                  queryExpr 0 = (some (model.Value.Vector v), none)
                ∧ ∀ s ∈ v, buildFails acceptingLibs s = true))
      ∧ ¬ (discoverLoop acceptingLibs twoSamples ≠ [] ∧ ([] : List proto.ErrorDTO) ≠ [])) :=
  ⟨rfl, Discover_outcomes acceptingLibs
    (clientReturning (some (model.Value.Vector twoSamples), none)) 0 []
    { EntityDTO := discoverLoop acceptingLibs twoSamples, ErrorDTO := [] } none rfl⟩

/-- C7: when the query succeeds with the empty sample vector, `Discover`
returns a response with no entity and no error descriptor, and a nil
error. -/
theorem Discover_empty_vector (libs : Libs) (c : PrometheusDiscoveryClient) (now : Int)
    (av : List proto.AccountValue)
    (hq : c.PrometheusApi.Query queryExpr now = (some (model.Value.Vector []), none)) :
    Discover libs c now av = some ({ EntityDTO := [], ErrorDTO := [] }, none) := by
  rw [Discover_of_vector libs c now av [] hq]
  rfl

theorem Discover_empty_vector_witness :
    (clientReturning (some (model.Value.Vector []), none)).PrometheusApi.Query queryExpr 7
        = (some (model.Value.Vector []), none)
    ∧ Discover pickyLibs (clientReturning (some (model.Value.Vector []), none)) 7 []
      = some ({ EntityDTO := [], ErrorDTO := [] }, none) :=
  ⟨rfl, Discover_empty_vector pickyLibs _ 7 [] rfl⟩

/-- C8: when the query succeeds with a sample vector, the entities of the
response are, in order and one for one, those of the samples whose
construction succeeded, and each has entity type APPLICATION, an
application-data payload of type "webdriver" with the fixed IP address
10.10.174.90, whatever the sample, and exactly one property: namespace
"DEFAULT", the SDK's IP-address property key as name and the payload's IP
address as value. -/
theorem Discover_entity_fixed_fields (libs : Libs) (c : PrometheusDiscoveryClient) (now : Int)
    (av : List proto.AccountValue) (v : List model.Sample)
    (hq : c.PrometheusApi.Query queryExpr now = (some (model.Value.Vector v), none)) :
    ∃ resp, Discover libs c now av = some (resp, none)
      ∧ List.Forall₂
          (fun e _ =>
            e.EntityType = some proto.EntityDTO_EntityType.APPLICATION
            ∧ e.ApplicationData
                = some { Type_ := some "webdriver", IpAddress := some "10.10.174.90" }
            ∧ e.EntityProperties
                = [{ Namespace := some "DEFAULT",
                     Name := some libs.SUPPLY_CHAIN_CONSTANT_IP_ADDRESS,
                     Value := some "10.10.174.90" }])
          resp.EntityDTO (v.filter (fun s => !buildFails libs s)) := by
  refine ⟨_, Discover_of_vector libs c now av v hq, ?_⟩
  apply forall₂_built
  intro s e h
  rw [buildEntity_ok h]
  exact ⟨rfl, rfl, rfl⟩

theorem Discover_entity_fixed_fields_witness :
    ((clientReturning (some (model.Value.Vector threeSamples), none)).PrometheusApi.Query
        queryExpr 0 = (some (model.Value.Vector threeSamples), none)
    ∧ ∃ resp, Discover pickyLibs
          (clientReturning (some (model.Value.Vector threeSamples), none)) 0 []
        = some (resp, none)
      ∧ List.Forall₂
          (fun e _ =>
            e.EntityType = some proto.EntityDTO_EntityType.APPLICATION
            ∧ e.ApplicationData
                = some { Type_ := some "webdriver", IpAddress := some "10.10.174.90" }
            ∧ e.EntityProperties
                = [{ Namespace := some "DEFAULT", Name := some "IP",
                     Value := some "10.10.174.90" }])
          resp.EntityDTO (threeSamples.filter (fun s => !buildFails pickyLibs s)))
    ∧ (threeSamples.filter (fun s => !buildFails pickyLibs s)).length = 2
    ∧ (Discover pickyLibs
          (clientReturning (some (model.Value.Vector threeSamples), none)) 0 []).map
        (fun r => r.1.EntityDTO.map
          (fun e => (e.EntityType, e.ApplicationData, e.EntityProperties)))
      = some [(some proto.EntityDTO_EntityType.APPLICATION,
               some { Type_ := some "webdriver", IpAddress := some "10.10.174.90" },
               [{ Namespace := some "DEFAULT", Name := some "IP",
                  Value := some "10.10.174.90" }]),
              (some proto.EntityDTO_EntityType.APPLICATION,
               some { Type_ := some "webdriver", IpAddress := some "10.10.174.90" },
               [{ Namespace := some "DEFAULT", Name := some "IP",
                  Value := some "10.10.174.90" }])] :=
  ⟨⟨rfl, Discover_entity_fixed_fields pickyLibs _ 0 [] threeSamples rfl⟩, by decide, by decide⟩

/-- C9: `Validate` returns the empty validation response and a nil error,
for every list of account values, the empty list included, and every
client. -/
theorem Validate_noop (c : PrometheusDiscoveryClient) (av : List proto.AccountValue) :
    Validate c av = ({ ErrorDTO := [] }, none) :=
  rfl

/-- C10: when the query succeeds with a sample vector, the entity list of
the response is, in input order, the entities of exactly the samples whose
builder did not return an error; and dropping a failing sample from the
vector leaves the list as it is. -/
theorem Discover_entities_in_order (libs : Libs) (c : PrometheusDiscoveryClient) (now : Int)
    (av : List proto.AccountValue) (v : List model.Sample)
    (hq : c.PrometheusApi.Query queryExpr now = (some (model.Value.Vector v), none)) :
    ∃ resp, Discover libs c now av = some (resp, none)
      ∧ resp.EntityDTO = v.filterMap (fun s => (buildEntity libs s).toOption)
      ∧ ∀ v₁ s v₂, v = v₁ ++ s :: v₂ → buildFails libs s = true →
          resp.EntityDTO = discoverLoop libs (v₁ ++ v₂) := by
  refine ⟨_, Discover_of_vector libs c now av v hq, discoverLoop_eq_filterMap libs v, ?_⟩
  intro v₁ s v₂ hv hs
  subst hv
  have hnone : (buildEntity libs s).toOption = none := by
    unfold buildFails at hs
    cases hb : buildEntity libs s with
    | error x => rfl
    | ok d => simp [hb] at hs
  simp [discoverLoop_eq_filterMap, List.filterMap_append, List.filterMap_cons, hnone]

theorem Discover_entities_in_order_witness :
    ((clientReturning (some (model.Value.Vector threeSamples), none)).PrometheusApi.Query
        queryExpr 0 = (some (model.Value.Vector threeSamples), none)
    ∧ ∃ resp, Discover pickyLibs
          (clientReturning (some (model.Value.Vector threeSamples), none)) 0 []
        = some (resp, none)
      ∧ resp.EntityDTO = threeSamples.filterMap (fun s => (buildEntity pickyLibs s).toOption)
      ∧ ∀ v₁ s v₂, threeSamples = v₁ ++ s :: v₂ → buildFails pickyLibs s = true →
          resp.EntityDTO = discoverLoop pickyLibs (v₁ ++ v₂))
    ∧ threeSamples.map (buildFails pickyLibs) = [false, true, false]
    ∧ (Discover pickyLibs
          (clientReturning (some (model.Value.Vector threeSamples), none)) 0 []).map
        (fun r => r.1.EntityDTO.map (fun e => (e.Id, e.CommoditiesSold.map
          (fun o => o.bind (fun k => k.Used)))))
      = some [(some "rt\x7bpage=\"a\"\x7d", [some 12.5]),
              (some "rt\x7bpage=\"b\"\x7d", [some 7.0])] :=
  ⟨⟨rfl, Discover_entities_in_order pickyLibs _ 0 [] threeSamples rfl⟩, by decide, rfl⟩

end discovery
